import Mathlib

/-!
Shallow embedding of the natural-language query pipeline of the
whatsapp-data-hub repository: the query execution engine
(`services/database_query_builder_service.py`), the response-formatting and
orchestration logic (`services/message_processing_service.py`), the audit-log
persistence (`services/message_log_service.py`) and the caller-identity
resolution used for greetings.

Python scalars are embedded as `Scalar`, rows as total functions from column
names to scalars, raised exceptions as `Except` errors.  The ORM classes
`Employee` and `MessageLog` (and the `Product` variant carrying
`product_manager_id`) are not present under `database/models.py` in the
checked-in tree (that file holds an older `users`/`partners` schema); their
column sets below are modelled from the schema text embedded in
`services/query_interpreter_service.py` (`self.db_schema`) and from
`api/schemas.py`, which the spec also describes.
-/

namespace WDH

/-- Embedding of the Python scalar values that flow through the pipeline:
strings, ints, UUIDs (by their canonical string form), booleans, and `None`.
Timestamps are carried as their ISO-8601 strings; numeric/decimal columns are
carried as ints (no claim inspects decimal-to-float serialization). -/
inductive Scalar where
  | s (v : String)
  | i (v : Int)
  | u (v : String)
  | b (v : Bool)
  | null
deriving DecidableEq, Repr

/-- A database row: a total assignment of column names to scalar values. -/
def Row : Type := String → Scalar

/-- A serialized result row as built by `execute_query`: an association list
from requested column names to (serialized) scalar values, in insertion
order. -/
abbrev RowDict : Type := List (String × Scalar)

/-- Column types as declared in the schema description embedded in
`query_interpreter_service.py` (`self.db_schema`). -/
inductive ColType where
  | uuid
  | text
  | intT
  | numT
  | boolT
  | timestamp
deriving DecidableEq, Repr

/-- Declared columns of the `employees` entity, in declaration order, from the
schema text in `query_interpreter_service.py`. -/
def employeeCols : List (String × ColType) :=
  [("id", .uuid), ("name", .text), ("phone_number", .text),
   ("telegram_id", .intT), ("email", .text), ("role", .text),
   ("is_authenticated", .boolT), ("created_at", .timestamp),
   ("updated_at", .timestamp)]

/-- Declared columns of the `products` entity, in declaration order, from the
schema text in `query_interpreter_service.py`. -/
def productCols : List (String × ColType) :=
  [("id", .uuid), ("name", .text), ("description", .text),
   ("product_manager_id", .uuid), ("length", .numT), ("height", .numT),
   ("width", .numT), ("weight", .numT), ("image_url", .text),
   ("price", .numT), ("stock_quantity", .intT), ("is_active", .boolT),
   ("notes", .text), ("created_at", .timestamp), ("updated_at", .timestamp)]

/-- The `model_map` of `DatabaseQueryBuilder`: table name to declared columns,
`none` for a table name outside the map. -/
def modelCols (t : String) : Option (List (String × ColType)) :=
  if t = "employees" then some employeeCols
  else if t = "products" then some productCols
  else none

/-- Relationship attributes of an ORM model.  `Product.product_manager` is the
relationship `_build_query` resolves from the foreign key
`product_manager_id` (see `api/schemas.py` `ProductBase.product_manager_id`
and the join examples in the interpreter prompt). -/
def modelRels (t : String) : List String :=
  if t = "products" then ["product_manager"] else []

/-- Python `hasattr(model, a)` for the attributes the embedding tracks:
declared columns and relationship attributes. -/
def hasattrModel (t a : String) : Bool :=
  (match modelCols t with
   | some cs => cs.any (fun c => c.1 = a)
   | none => false) || (modelRels t).contains a

/-- Declared type of column `a` on model `t`, if declared. -/
def colType (t a : String) : Option ColType :=
  match modelCols t with
  | some cs => (cs.find? (fun c => c.1 = a)).map (fun c => c.2)
  | none => none

/-- The database state: the rows of the two queryable tables. -/
structure DB where
  employees : List Row
  products : List Row

/-- Rows of a table known to be in `model_map`. -/
def tableRows (db : DB) (t : String) : List Row :=
  if t = "employees" then db.employees
  else if t = "products" then db.products
  else []

/-- Whether the needle character list occurs at the head of the haystack. -/
def lcStarts : List Char → List Char → Bool
  | _, [] => true
  | [], _ :: _ => false
  | h :: hs, n :: ns => h == n && lcStarts hs ns

/-- Whether the needle character list occurs anywhere inside the haystack. -/
def lcHas (hay needle : List Char) : Bool :=
  match hay with
  | [] => needle.isEmpty
  | _ :: t => lcStarts hay needle || lcHas t needle

/-- Python `str.lower()` (over the character list, so that it computes by
structural recursion). -/
def strLower (str : String) : String :=
  ⟨str.toList.map Char.toLower⟩

/-- SQL LIKE matching over character lists: `%` matches any sequence, `_`
any single character, and a backslash escapes the following character
(PostgreSQL's default escape).  The fuel argument makes the recursion
structural; every call shrinks pattern + text, so starting fuel
`pattern.length + text.length + 1` is never exhausted.  A pattern ending in
a bare escape character is a PostgreSQL error and cannot arise here, since
the engine's patterns always end in `%`; that arm returns `false`. -/
def likeMatchGo : Nat → List Char → List Char → Bool
  | 0, _, _ => false
  | fuel + 1, pat, t =>
    match pat with
    | [] => t.isEmpty
    | c :: ps =>
      if c = '%' then
        likeMatchGo fuel ps t ||
          (match t with
           | [] => false
           | _ :: ts => likeMatchGo fuel (c :: ps) ts)
      else if c = '_' then
        (match t with
         | [] => false
         | _ :: ts => likeMatchGo fuel ps ts)
      else if c = '\\' then
        (match ps with
         | [] => false
         | p :: ps2 =>
           match t with
           | [] => false
           | d :: ts => d == p && likeMatchGo fuel ps2 ts)
      else
        (match t with
         | [] => false
         | d :: ts => d == c && likeMatchGo fuel ps ts)

/-- SQL LIKE with sufficient fuel. -/
def likePattern (pat text : List Char) : Bool :=
  likeMatchGo (pat.length + text.length + 1) pat text

/-- The filter predicate produced by `column.ilike(f"%{value}%")` in
`_build_query`: the value is interpolated **unescaped** between two `%`
wildcards, so `%`, `_` and backslash inside the value keep their LIKE
meaning; `ILIKE` case-insensitivity is modelled by lower-casing both
sides. -/
def ilikeSub (hay pat : String) : Bool :=
  likePattern ('%' :: (pat.toList.map Char.toLower) ++ ['%']) (hay.toList.map Char.toLower)

/-- Case-insensitive **literal** substring containment — the claim-side
notion of "searching for that exact literal string", to be compared with the
engine's `ilikeSub`. -/
def litSubCI (hay pat : String) : Bool :=
  lcHas (hay.toList.map Char.toLower) (pat.toList.map Char.toLower)

/-- A LIKE pattern fragment free of the metacharacters `%`, `_` and the
escape character. -/
def likePlain (cs : List Char) : Bool :=
  cs.all (fun c => c ≠ '%' && c ≠ '_' && c ≠ '\\')

/-- Python `str.endswith(pat)` over character lists. -/
def lcEnds (cs pat : List Char) : Bool :=
  lcStarts cs.reverse pat.reverse

/-- Helper for `replaceAll`: structural left-to-right scan; `skip` counts
characters still covered by the previous replacement. -/
def replaceAllGo (pat rep : List Char) : List Char → Nat → List Char
  | [], _ => []
  | _ :: rest, n + 1 => replaceAllGo pat rep rest n
  | c :: rest, 0 =>
    if !pat.isEmpty && lcStarts (c :: rest) pat then
      rep ++ replaceAllGo pat rep rest (pat.length - 1)
    else c :: replaceAllGo pat rep rest 0

/-- Python `str.replace(pat, rep)`: replace every non-overlapping occurrence,
scanning left to right. -/
def replaceAll (pat rep cs : List Char) : List Char :=
  replaceAllGo pat rep cs 0

/-- Whitespace for Python `int(str)` stripping. -/
def isWsChar (c : Char) : Bool :=
  c = ' ' || c = '\t' || c = '\n' || c = '\r'

/-- Digit-string to number; `none` on any non-digit. -/
def natOfDigitsGo : List Char → Nat → Option Nat
  | [], acc => some acc
  | c :: cs, acc =>
    if c.isDigit then natOfDigitsGo cs (acc * 10 + (c.toNat - 48)) else none

/-- Python `int(str)`: strip surrounding whitespace, allow one optional sign,
then digits only (Pythonic extras such as underscore digit grouping are not
modelled; no claim uses them). -/
def pyIntOfChars (cs : List Char) : Option Int :=
  let t := ((cs.dropWhile isWsChar).reverse.dropWhile isWsChar).reverse
  match t with
  | '-' :: rest =>
    if rest.isEmpty then none else (natOfDigitsGo rest 0).map (fun n => -(n : Int))
  | '+' :: rest =>
    if rest.isEmpty then none else (natOfDigitsGo rest 0).map (fun n => (n : Int))
  | rest =>
    if rest.isEmpty then none else (natOfDigitsGo rest 0).map (fun n => (n : Int))

/-- Python `str.rstrip('s')`: remove every trailing `s`. -/
def rstripS (str : String) : String :=
  ⟨(str.toList.reverse.dropWhile (fun c => c = 's')).reverse⟩

/-- Python `str.split(sep)` for a one-character separator (no collapsing of
adjacent separators, leading/trailing empty fields kept). -/
def pySplit (sep : Char) : List Char → List (List Char)
  | [] => [[]]
  | c :: cs =>
    if c = sep then [] :: pySplit sep cs
    else
      match pySplit sep cs with
      | [] => [[c]]
      | w :: ws => (c :: w) :: ws

/-- Python `name.split(' ')[0]` as used by `process_inbound_message` for the
greeting name. -/
def splitFirstWord (name : String) : String :=
  ⟨((pySplit ' ' name.toList).headD [])⟩

/-- A query intent as read by `execute_query` via `query_intent.get(...)`.
Each field is one dict key; `Option.none` stands for an absent key.  For
`limit` the absent key and a JSON `null` value coincide on `Scalar.null`
(both skip the parsing block, since `raw_limit is not None` fails).  For
`columns` and `filters`, a key present with value `null` is collapsed onto
the absent case; no claim distinguishes them. -/
structure Intent where
  table : Option String
  action : Option String
  columns : Option (List String)
  filters : Option (List (String × Scalar))
  limit : Scalar
  joinTable : Option String
  joinOn : Option String
  joinColumns : Option (List String)
  error : Option String
deriving DecidableEq, Repr

/-- Exceptions that `execute_query` raises to its caller (they occur before
its `try` block): `ValueError` for the action/table validation, `TypeError`
when `int(raw_limit)` is applied to a value `int` does not accept.  `other`
covers the remaining exception classes that can cross the orchestrator
boundary (AttributeError, storage-layer errors), carrying `str(e)`. -/
inductive PyErr where
  | valueError (msg : String)
  | typeError (msg : String)
  | other (msg : String)
deriving DecidableEq, Repr

/-- Python `str(e)` of a raised exception, as interpolated into apology
strings. -/
def PyErr.str : PyErr → String
  | .valueError m => m
  | .typeError m => m
  | .other m => m

/-- Exceptions raised inside the `try` block of `execute_query`.
`valueError` is caught by the dedicated `except ValueError` arm; every other
exception kind (AttributeError, NameError, IndexError, storage-level errors)
lands in the generic `except Exception` arm, so they are collapsed onto
`otherError` carrying the message text. -/
inductive ExecErr where
  | valueError (msg : String)
  | otherError (msg : String)
deriving DecidableEq, Repr

/-- Python truthiness of an optional string (`None` and `""` are falsy). -/
def truthyOpt : Option String → Bool
  | none => false
  | some s => s ≠ ""

/-- Python `str(x)` on an optional string, printing `None` for absence. -/
def showOptStr : Option String → String
  | none => "None"
  | some s => s

/-- Hexadecimal digit value of a character. -/
def hexDigitVal (c : Char) : Option Nat :=
  if c.isDigit then some (c.toNat - 48)
  else if 'a' ≤ c ∧ c ≤ 'f' then some (c.toNat - 87)
  else if 'A' ≤ c ∧ c ≤ 'F' then some (c.toNat - 55)
  else none

/-- Hex string to number; `none` on any non-hex character. -/
def hexToNatGo : List Char → Nat → Option Nat
  | [], acc => some acc
  | c :: cs, acc =>
    match hexDigitVal c with
    | some d => hexToNatGo cs (acc * 16 + d)
    | none => none

/-- Translation of the limit-parsing block of `execute_query`: an absent or
`None` limit skips parsing (leaving `limit = None`); the string `"null"`
(case-insensitive) yields `None`; a parsable value `≤ 0` raises ValueError
which the surrounding `except ValueError` catches, leaving `limit = None`;
an unparsable string likewise ends at `limit = None`.  `int()` on a Python
UUID succeeds (`uuid.UUID` defines `__int__` as the 128-bit value of its hex
digits), modelled by hex-parsing the carried string with dashes dropped; a
`Scalar.u` whose string is not a hex form corresponds to no Python UUID, so
its fallback branch is immaterial (a UUID-typed limit can in any case never
arrive from `json.loads` output).  A `None` result means no LIMIT clause is
applied. -/
def parseLimit : Scalar → Except PyErr (Option Int)
  | .null => .ok none
  | .s v =>
    if strLower v = "null" then .ok none
    else
      match pyIntOfChars v.toList with
      | some n => if n ≤ 0 then .ok none else .ok (some n)
      | none => .ok none
  | .i n => if n ≤ 0 then .ok none else .ok (some n)
  | .b bv => if bv then .ok (some 1) else .ok none
  | .u v =>
    match hexToNatGo (v.toList.filter (fun c => c ≠ '-')) 0 with
    | some n => if (n : Int) ≤ 0 then .ok none else .ok (some (n : Int))
    | none => .ok none

/-- UUID serialization of `execute_query`: `str(val)` for UUIDs; timestamps
already travel as ISO strings in this embedding; everything else passes
through. -/
def ser : Scalar → Scalar
  | .u v => .s v
  | x => x

/-- Python dict assignment `d[k] = v`: overwrite in place when the key
exists, append otherwise. -/
def dictInsert (d : RowDict) (k : String) (v : Scalar) : RowDict :=
  if d.any (fun kv => kv.1 = k) then
    d.map (fun kv => if kv.1 = k then (k, v) else kv)
  else d ++ [(k, v)]

/-- Helper for `rowDictOfTuple`, carrying the dict built so far. -/
def rowDictGo : List String → List Scalar → RowDict → Except ExecErr RowDict
  | [], _, acc => .ok acc
  | _ :: _, [], _ => .error (.otherError "tuple index out of range")
  | n :: ns, v :: vs, acc => rowDictGo ns vs (dictInsert acc n (ser v))

/-- Row-dict construction of `execute_query`: assign the i-th requested
column name the i-th tuple value (`val = result_tuple[i]`), serializing each
value, with Python dict overwrite semantics for duplicate names (a joined
column sharing its name with a primary column overwrites it); a name list
longer than the value tuple raises IndexError. -/
def rowDictOfTuple (names : List String) (vals : List Scalar) : Except ExecErr RowDict :=
  rowDictGo names vals []

/-- Which model a filter key is applied to, following `_build_query`: the
primary model whenever it has the attribute; otherwise, with a truthy
`join_table`, the joined model is consulted — but `joined_model` is only
bound when the whole join block ran (`join_table and join_on and
join_columns is not None`), so consulting it otherwise raises NameError; a
key on neither model leaves the primary as target and `getattr` raises
AttributeError. -/
inductive FTarget where
  | primary
  | joined
  | errAttr
  | errName
deriving DecidableEq, Repr

/-- Resolution of a filter key to its target model, translated from the
filter loop of `_build_query`. -/
def resolveFilterTarget (t : String) (joinTruthy joinActive : Bool)
    (jt : String) (col : String) : FTarget :=
  if hasattrModel t col then .primary
  else if joinTruthy then
    if joinActive then (if hasattrModel jt col then .joined else .errAttr)
    else .errName
  else .errAttr

/-- SQL `ILIKE` of a scalar column value against a pattern: only text values
can match. -/
def ilikeVal (sv : Scalar) (pat : String) : Bool :=
  match sv with
  | .s hay => ilikeSub hay pat
  | _ => false

/-- Filter application of `_build_query`, folded over the filter dict in
insertion order; the carrier is the list of (primary row, joined row) pairs
(for a non-join query the second component is a duplicate of the first and
is never consulted).  String values become case-insensitive `ILIKE
%value%` substring matches; a string filter against a non-text column, or
any filter on a relationship attribute, errors at the storage layer and is
modelled as a generic exception; every other scalar value compares by
equality. -/
def applyFilters (t : String) (joinTruthy joinActive : Bool) (jt : String) :
    List (String × Scalar) → List (Row × Row) → Except ExecErr (List (Row × Row))
  | [], rows => .ok rows
  | (col, v) :: rest, rows =>
    match resolveFilterTarget t joinTruthy joinActive jt col with
    | .errAttr => .error (.otherError ("type object has no attribute " ++ col))
    | .errName => .error (.otherError "name joined_model is not defined")
    | tgt =>
      let tm := if tgt = .joined then jt else t
      let pick : Row × Row → Row := if tgt = .joined then Prod.snd else Prod.fst
      if (modelRels tm).contains col then
        .error (.otherError "cannot filter on a relationship attribute")
      else
        match v with
        | .s str =>
          if colType tm col = some .text then
            applyFilters t joinTruthy joinActive jt rest
              (rows.filter (fun pe => ilikeVal (pick pe col) str))
          else .error (.otherError "ILIKE operator does not exist for a non-text column")
        | _ =>
          applyFilters t joinTruthy joinActive jt rest
            (rows.filter (fun pe => pick pe col == v))

/-- Join-column validation of `_build_query`, in code order: the first
requested join column missing from the joined model raises ValueError. -/
def checkJoinCols (jt : String) : List String → Except ExecErr Unit
  | [] => .ok ()
  | c :: cs =>
    if hasattrModel jt c then checkJoinCols jt cs
    else .error (.valueError ("Requested join_column " ++ c ++ " not found in join_table " ++ jt ++ "."))

/-- Translation of `DatabaseQueryBuilder._build_query` followed by
`query.all()`: resolves the primary model, selects the requested entities
(silently dropping requested columns the primary model lacks), performs the
single-hop relationship join when all three join fields are supplied,
validates join columns, applies filters, and returns the raw result tuples
(one `List Scalar` per row, primary entities first, then join entities).
`db.query()` over an empty entity list fails at the storage layer and is
modelled as a generic exception.  The only relationship in the catalog is
`Product.product_manager` (foreign key `product_manager_id` on `products`,
joined to `employees.id` by an inner equality join), so a successful join
always traverses it; `getattr(joined_model, col)` resolves against
`model_map[join_table]`, so when `join_table` is `"employees"` the appended
join entities read from the joined employee row, and when it is
`"products"` (the primary model itself) they read from the primary row. -/
def buildQuery (db : DB) (tableName : String) (filters : List (String × Scalar))
    (columns : List String) (joinTable joinOn : Option String)
    (joinColumns : Option (List String)) : Except ExecErr (List (List Scalar)) :=
  match modelCols tableName with
  | none => .error (.valueError ("Unknown primary table name: " ++ tableName))
  | some pcols =>
    let pcolNames := pcols.map Prod.fst
    let specific := !columns.isEmpty && !columns.contains "*"
    let selected := if specific then columns.filter (hasattrModel tableName) else pcolNames
    if selected.isEmpty then .error (.otherError "query contains no entities to select") else
    let joinTruthy := truthyOpt joinTable
    let joinActive := joinTruthy && truthyOpt joinOn && !joinColumns.isNone
    if joinActive then
      let jt := joinTable.getD ""
      let jon := joinOn.getD ""
      let jcols := joinColumns.getD []
      match modelCols jt with
      | none => .error (.valueError ("Unknown join_table name: " ++ jt))
      | some _ =>
        let relName : String :=
          if lcEnds jon.toList "_id".toList then ⟨replaceAll "_id".toList [] jon.toList⟩ else jon
        if ¬ hasattrModel tableName relName then
          .error (.valueError ("Relationship " ++ relName ++ " not found on primary table " ++ tableName ++ " for join."))
        else if ¬ (modelRels tableName).contains relName then
          .error (.otherError "join target attribute is not a relationship")
        else
          match checkJoinCols jt jcols with
          | .error e => .error e
          | .ok _ =>
            let pairs := (tableRows db tableName).flatMap
              (fun p => (db.employees.filter
                (fun e => p "product_manager_id" == e "id")).map (fun e => (p, e)))
            let jpick : Row × Row → Row := if jt = "employees" then Prod.snd else Prod.fst
            match applyFilters tableName joinTruthy joinActive jt filters pairs with
            | .error e => .error e
            | .ok fpairs =>
              .ok (fpairs.map (fun pe => selected.map pe.1 ++ jcols.map (fun c => jpick pe c)))
    else
      match applyFilters tableName joinTruthy joinActive (joinTable.getD "") filters
        ((tableRows db tableName).map (fun p => (p, p))) with
      | .error e => .error e
      | .ok frows =>
        .ok (frows.map (fun pe => selected.map pe.1))

/-- Result serialization of `execute_query` after `query.all()`: for the join
path, tuple values are mapped onto `columns` (or, with `["*"]`, onto the
declared primary columns) followed by `join_columns`; for the non-join path
with specific columns, onto the original (pre-drop) `columns` list, which
raises IndexError whenever a requested column was silently dropped and at
least one row came back; for the `["*"]` path, onto the declared primary
columns. -/
def serializeResults (tableName : String) (columns : List String)
    (joinActive : Bool) (joinColumns : Option (List String))
    (tuples : List (List Scalar)) : Except ExecErr (List RowDict) :=
  let pcolNames := (modelCols tableName).getD [] |>.map Prod.fst
  let specific := !columns.isEmpty && !columns.contains "*"
  if joinActive then
    let jcols := joinColumns.getD []
    let finalNames := (if specific then columns else pcolNames) ++ jcols
    tuples.mapM (rowDictOfTuple finalNames)
  else
    if specific then tuples.mapM (rowDictOfTuple columns)
    else tuples.mapM (rowDictOfTuple pcolNames)

/-- The body of the `try` block of `execute_query`: the in-`try` re-check of
the table name, query construction, the LIMIT clause, execution and row
serialization. -/
def execBody (db : DB) (q : Intent) (tableName : String)
    (columns : List String) (filters : List (String × Scalar))
    (lim : Option Int) : Except ExecErr (List RowDict) :=
  if (modelCols tableName).isNone then
    .error (.valueError ("Unknown table name: " ++ tableName))
  else
    match buildQuery db tableName filters columns q.joinTable q.joinOn q.joinColumns with
    | .error e => .error e
    | .ok tuples =>
      let limited := match lim with
        | some n => if n > 0 then tuples.take n.toNat else tuples
        | none => tuples
      let joinActive := truthyOpt q.joinTable && truthyOpt q.joinOn && !q.joinColumns.isNone
      serializeResults tableName columns joinActive q.joinColumns limited

/-- The exception handlers at the end of `execute_query`: a ValueError
becomes the sentinel `[{"error": str(ve)}]`; any other exception becomes the
sentinel with the generic "unexpected database error" prefix. -/
def execCatch : Except ExecErr (List RowDict) → List RowDict
  | .ok rows => rows
  | .error (.valueError m) => [[("error", .s m)]]
  | .error (.otherError m) => [[("error", .s ("An unexpected database error occurred: " ++ m))]]

/-- Translation of `DatabaseQueryBuilder.execute_query` applied to an intent
dict.  The limit is parsed first; then the action and table validations
raise ValueError to the caller (they precede the `try` block); everything
else runs inside the `try` block and is converted to the one-element error
sentinel by the handlers.  (Quote characters inside the original f-string
messages are elided.) -/
def executeQuery (db : DB) (q : Intent) : Except PyErr (List RowDict) :=
  let columns := q.columns.getD ["*"]
  let filters := q.filters.getD []
  match parseLimit q.limit with
  | .error e => .error e
  | .ok lim =>
    if q.action ≠ some "get_data" then
      .error (.valueError ("Unsupported action: " ++ showOptStr q.action ++ ". Only get_data is supported."))
    else if ¬ truthyOpt q.table then
      .error (.valueError "Query intent missing table name.")
    else
      let tableName := q.table.getD ""
      .ok (execCatch (execBody db q tableName columns filters lim))

/-- Python `str()` of the scalar values that appear in result dicts. -/
def pyStr : Scalar → String
  | .s v => v
  | .i n => toString n
  | .u v => v
  | .b true => "True"
  | .b false => "False"
  | .null => "None"

/-- Helper for `pyTitle`: the flag records whether the previous character was
alphabetic. -/
def pyTitleGo : Bool → List Char → List Char
  | _, [] => []
  | prev, c :: cs =>
    (if c.isAlpha then (if prev then c.toLower else c.toUpper) else c) ::
      pyTitleGo c.isAlpha cs

/-- Python `str.title()`: uppercase every letter that follows a non-letter,
lowercase the other letters. -/
def pyTitle (str : String) : String :=
  ⟨pyTitleGo false str.toList⟩

/-- One line of the general result rendering in `process_inbound_message`:
`", ".join(f"{k.replace('_', ' ').title()}: {v}" for k, v in item.items())`. -/
def formatRow (item : RowDict) : String :=
  String.intercalate ", "
    (item.map (fun kv =>
      pyTitle ⟨replaceAll "_".toList [' '] kv.1.toList⟩ ++ ": " ++ pyStr kv.2))

/-- The sentinel test of `process_inbound_message`: the result list is
nonempty and its first dict carries an `"error"` key. -/
def isSentinel : List RowDict → Bool
  | [] => false
  | first :: _ => first.any (fun kv => kv.1 = "error")

/-- The value `db_results[0]["error"]` read by the sentinel branch. -/
def sentinelMsg : List RowDict → Scalar
  | [] => .null
  | first :: _ => ((first.find? (fun kv => kv.1 = "error")).map Prod.snd).getD .null

/-- Translation of the response-formatting branch cascade of
`process_inbound_message` (the code between the `execute_query` call and the
audit-log write), as a function of the intent dict, the execution result and
the greeting name.  An intent whose `table` key is absent renders the count
phrase with the `items` fallback of `.get('table', 'items')`.  Apostrophes
in the original literals are written with their `\x27` escape. -/
def formatResponse (q : Intent) (dbResults : List RowDict) (name : String) : String :=
  if isSentinel dbResults then
    "Sorry " ++ name ++ ", an error occurred while querying the database: " ++
      pyStr (sentinelMsg dbResults)
  else if q.action = some "get_data" ∧ q.columns = some ["id"] ∧ q.filters = some [] then
    "There are " ++ toString dbResults.length ++ " " ++
      rstripS (q.table.getD "items") ++ "s in the database, " ++ name ++ "."
  else if dbResults.isEmpty then
    "Sorry " ++ name ++ ", I couldn\x27t find any information matching your request."
  else
    "Here is the information you requested, " ++ name ++ ":\n" ++
      String.intercalate "\n" (dbResults.map formatRow)

/-- The slice of an `employees` ORM row the orchestrator reads (`id`,
`name`).  Modelled from the spec: the `Employee` ORM class is absent from
the checked-in `database/models.py`; its mandatory non-empty `name` follows
the schema text in `query_interpreter_service.py` and
`api/schemas.py` (`EmployeeBase.name`, min length 1). -/
structure EmployeeRec where
  id : String
  name : String
deriving DecidableEq, Repr

/-- Translation of step 1 of `process_inbound_message`: the greeting defaults
to `"there"`; with a truthy `employee_id` the employee is looked up (the
lookup may raise, which nothing in the orchestrator catches), and a found
employee with a truthy name contributes `name.split(' ')[0]`. -/
def greetingName (employeeId : Option String)
    (empLookup : Except String (Option EmployeeRec)) : Except String String :=
  match employeeId with
  | none => .ok "there"
  | some _ =>
    match empLookup with
    | .error e => .error e
    | .ok none => .ok "there"
    | .ok (some emp) =>
      .ok (if emp.name ≠ "" then splitFirstWord emp.name else "there")

/-- The pydantic `MessageLogCreate` payload assembled by
`process_inbound_message` (the `ai_interpreted_command` field exists on the
schema but is never passed by the orchestrator).  `phone_number` is a
required `str` on `MessageLogBase` in `api/schemas.py`, so a validated
payload always carries one — see `mkMessageLogCreate`. -/
structure MessageLogCreateRec where
  employee_id : Option String
  direction : String
  raw_message_content : String
  status : String
  phone_number : String
  system_response_content : Option String
  ai_interpreted_command : Option String
deriving DecidableEq, Repr

/-- Pydantic validation performed when `process_inbound_message` constructs
its `MessageLogCreate` payload (step 5, outside any handler): the required
`phone_number : str` rejects `None` with a ValidationError; every other
field the orchestrator passes is statically well-typed. -/
def mkMessageLogCreate (employeeId : Option String) (direction raw status : String)
    (phone : Option String) (resp : Option String) (aiCmd : Option String) :
    Except String MessageLogCreateRec :=
  match phone with
  | none => .error "1 validation error for MessageLogCreate: phone_number Input should be a valid string"
  | some ph => .ok (MessageLogCreateRec.mk employeeId direction raw status ph resp aiCmd)

/-- The persisted `MessageLog` ORM row.  Modelled from the spec: the
`MessageLog` ORM class is absent from the checked-in `database/models.py`;
its fields follow `api/schemas.py` (`MessageLog`) and the audit-record shape
in the spec. -/
structure MessageLogRec where
  employee_id : Option String
  direction : String
  raw_message_content : String
  status : String
  phone_number : String
  system_response_content : Option String
  ai_interpreted_command : Option String
deriving DecidableEq, Repr

/-- Translation of `MessageLogService.create_message_log`: the ORM row is
constructed from `employee_id`, `direction`, `raw_message_content`,
`status` and `phone_number` only — the `system_response_content` and
`ai_interpreted_command` fields of the payload are not passed, so the
persisted row carries `None` in both. -/
def createMessageLog (d : MessageLogCreateRec) : MessageLogRec :=
  MessageLogRec.mk d.employee_id d.direction d.raw_message_content d.status
    d.phone_number none none

/-- A Python object handed to `execute_query`: the orchestrator passes the
un-unpacked `(intent, raw_backend_text)` tuple returned by
`interpret_query`, while a well-typed caller would pass the intent dict. -/
inductive PyObj where
  | dict (q : Intent)
  | tup (q : Intent) (raw : Option String)

/-- `execute_query` as invoked on an arbitrary object: its first statement is
`query_intent.get("table")`, so a tuple argument raises AttributeError
before the `try` block and before any validation.  (Quote characters of the
original exception text are elided.) -/
def executeQueryObj (db : DB) : PyObj → Except PyErr (List RowDict)
  | .dict q => executeQuery db q
  | .tup _ _ => .error (.other "tuple object has no attribute get")

/-- Translation of `MessageProcessingService.process_inbound_message`.

Inputs beyond the database: the caller id, raw text and phone number; the
observed behaviour of `employee_service.get_employee_by_id` (`empLookup`,
which may raise); the pair returned by `interpret_query` (`interp` — the
interpreter catches its own exceptions, so it never raises); and the
behaviour of `message_log_service.create_message_log` (`persist`, which may
raise; its fault-free behaviour is `fun d => .ok (createMessageLog d)`).

Control flow from the source: step 1 (greeting) runs outside any handler;
step 3 tests `"error" in llm_query_intent` against the `(intent, raw)`
tuple — string-vs-dict comparison is always false, so the test holds only
when the raw backend text is the literal `"error"`, and then
`llm_query_intent["error"]` raises TypeError outside any handler; otherwise
step 4 calls `execute_query` on the tuple inside `try/except Exception`,
which always raises AttributeError, caught and rendered as the generic
database-lookup apology (the formatting cascade is therefore dead code on
this path; it is embedded as `formatResponse`); step 5 first constructs the
`MessageLogCreate` payload — whose pydantic validation raises for a `None`
phone number — and then persists the log, both outside any handler.
Returns the assembled `MessageLogCreate` payload together with the
persisted row. -/
def processInbound (db : DB) (employeeId : Option String) (raw : String)
    (phone : Option String) (empLookup : Except String (Option EmployeeRec))
    (interp : Intent × Option String)
    (persist : MessageLogCreateRec → Except String MessageLogRec) :
    Except PyErr (MessageLogCreateRec × MessageLogRec) :=
  match greetingName employeeId empLookup with
  | .error e => .error (.other e)
  | .ok name =>
    if interp.2 = some "error" then
      .error (.typeError "tuple indices must be integers or slices, not str")
    else
      let resp :=
        match executeQueryObj db (.tup interp.1 interp.2) with
        | .error e =>
          "Sorry " ++ name ++ ", an unexpected error occurred during the database lookup: " ++ e.str
        | .ok dbResults => formatResponse interp.1 dbResults name
      match mkMessageLogCreate employeeId "inbound" raw "received" phone (some resp) none with
      | .error e => .error (.other e)
      | .ok createData =>
        match persist createData with
        | .error e => .error (.other e)
        | .ok log => .ok (createData, log)

/-- The fault-free behaviour of `message_log_service.create_message_log`. -/
def persistOk (d : MessageLogCreateRec) : Except String MessageLogRec :=
  .ok (createMessageLog d)

/-- The portion of a name strictly before its first space (the whole name
when it has none) — the claim-side phrasing, to be compared with the
`split`-based computation of the source. -/
def beforeFirstSpace (s : String) : String :=
  ⟨s.toList.takeWhile (fun c => c ≠ ' ')⟩

/-- A concrete `products` row used in witnesses. -/
def prodQuantum : Row := fun c =>
  if c = "id" then .u "p1" else if c = "name" then .s "Quantum Qube"
  else if c = "description" then .s "a cube" else if c = "product_manager_id" then .u "e1"
  else if c = "stock_quantity" then .i 5 else if c = "is_active" then .b true
  else if c = "created_at" then .s "2024-01-01T00:00:00" else .null

/-- A second concrete `products` row used in witnesses. -/
def prodBottle : Row := fun c =>
  if c = "id" then .u "p2" else if c = "name" then .s "Eco Bottle"
  else if c = "description" then .s "a bottle" else if c = "product_manager_id" then .u "e2"
  else if c = "stock_quantity" then .i 7 else if c = "is_active" then .b true
  else if c = "created_at" then .s "2024-01-02T00:00:00" else .null

/-- A concrete `employees` row used in witnesses. -/
def empJordan : Row := fun c =>
  if c = "id" then .u "e1" else if c = "name" then .s "Jordan Smith"
  else if c = "email" then .s "jordan@example.com" else if c = "is_authenticated" then .b true
  else .null

/-- A concrete database with one employee and two products. -/
def dbTwo : DB := DB.mk [empJordan] [prodQuantum, prodBottle]

/-- The empty database. -/
def dbEmpty : DB := DB.mk [] []

/-- Shorthand for assembling an intent dict without join fields. -/
def mkIntent (table action : Option String) (columns : Option (List String))
    (filters : Option (List (String × Scalar))) (limit : Scalar) : Intent :=
  Intent.mk table action columns filters limit none none none none

/-- The canonical count intent of the spec scenario:
`{table: "products", action: "get_data", columns: ["id"], filters: {}}`. -/
def countIntent : Intent :=
  mkIntent (some "products") (some "get_data") (some ["id"]) (some []) .null

/-- The error-bearing intent component `interpret_query` returns when the
backend produces malformed JSON (first component of the `(intent, raw)`
pair; the quote characters of the original message are elided). -/
def malformedJsonIntent : Intent :=
  Intent.mk none none none none .null none none none
    (some "Internal error: The AI was not able to interpret the query as valid JSON")

/-- Whether an `execute_query` outcome is a raised (uncaught) ValueError. -/
def isRaisedValueError : Except PyErr (List RowDict) → Bool
  | .error (.valueError _) => true
  | _ => false

/-- The row pairs produced by the inner equality join over the
`Product.product_manager` relationship:
`products.product_manager_id = employees.id`. -/
def joinPairs (db : DB) : List (Row × Row) :=
  db.products.flatMap
    (fun p => (db.employees.filter (fun e => p "product_manager_id" == e "id")).map
      (fun e => (p, e)))

theorem pySplit_ne_nil (sep : Char) (cs : List Char) : pySplit sep cs ≠ [] := by
  induction cs with
  | nil => simp [pySplit]
  | cons c cs ih =>
    by_cases h : c = sep
    · simp [pySplit, h]
    · simp only [pySplit, if_neg h]
      cases hp : pySplit sep cs with
      | nil => simp
      | cons w ws => simp

theorem pySplit_headD (sep : Char) (cs : List Char) :
    (pySplit sep cs).headD [] = cs.takeWhile (fun c => c ≠ sep) := by
  induction cs with
  | nil => simp [pySplit]
  | cons c cs ih =>
    by_cases h : c = sep
    · simp [pySplit, h, List.takeWhile_cons]
    · cases hp : pySplit sep cs with
      | nil => exact absurd hp (pySplit_ne_nil sep cs)
      | cons w ws =>
        rw [hp] at ih
        simp only [pySplit, if_neg h, hp, List.headD_cons, List.takeWhile_cons] at ih ⊢
        simp [h, ih]

theorem splitFirstWord_eq_beforeFirstSpace (s : String) :
    splitFirstWord s = beforeFirstSpace s := by
  unfold splitFirstWord beforeFirstSpace
  rw [pySplit_headD]

/-- C10: when `employee_id` is absent or no employee with that id exists, the
generated response addresses the caller with the fixed placeholder `there`;
when a matching employee (with its mandatory non-empty name) is found, the
greeting uses only the portion of the name before the first space; and the
response produced by `process_inbound_message` (for a call carrying a phone
number, so that the audit payload passes its pydantic validation) embeds
exactly that greeting name. -/
theorem c10_greeting_resolution :
    (∀ lookup : Except String (Option EmployeeRec),
      greetingName none lookup = .ok "there") ∧
    (∀ eid : String, greetingName (some eid) (.ok none) = .ok "there") ∧
    (∀ (eid i nm : String), nm ≠ "" →
      greetingName (some eid) (.ok (some (EmployeeRec.mk i nm))) =
        .ok (beforeFirstSpace nm)) ∧
    (∀ (db : DB) (eid : Option String) (raw ph : String)
      (lookup : Except String (Option EmployeeRec))
      (interp : Intent × Option String) (nm : String),
      greetingName eid lookup = .ok nm →
      interp.2 ≠ some "error" →
      ∃ out, processInbound db eid raw (some ph) lookup interp persistOk = .ok out ∧
        out.1.system_response_content =
          some ("Sorry " ++ nm ++ ", an unexpected error occurred during the database lookup: " ++
            "tuple object has no attribute get")) := by
  refine ⟨fun lookup => rfl, fun eid => rfl, fun eid i nm hnm => ?_, ?_⟩
  · simp [greetingName, hnm, splitFirstWord_eq_beforeFirstSpace]
  · intro db eid raw ph lookup interp nm hname hraw
    unfold processInbound
    rw [hname]
    simp only [if_neg hraw, executeQueryObj, persistOk, PyErr.str, createMessageLog,
      mkMessageLogCreate]
    exact ⟨_, rfl, rfl⟩

/-- Witness for `c10_greeting_resolution` at concrete inputs. -/
theorem c10_greeting_resolution_witness :
    greetingName (some "e1") (.ok (some (EmployeeRec.mk "e1" "Jordan Smith"))) =
      .ok (beforeFirstSpace "Jordan Smith") ∧
    (∃ out, processInbound dbEmpty none "hello" (some "+4917641208400") (.ok none)
        (countIntent, some "raw json") persistOk = .ok out ∧
      out.1.system_response_content =
        some ("Sorry " ++ "there" ++ ", an unexpected error occurred during the database lookup: " ++
          "tuple object has no attribute get")) :=
  ⟨c10_greeting_resolution.2.2.1 "e1" "e1" "Jordan Smith" (by decide),
   c10_greeting_resolution.2.2.2 dbEmpty none "hello" "+4917641208400" (.ok none)
     (countIntent, some "raw json") "there" rfl (by decide)⟩

end WDH

namespace WDH

/-- C1: evaluation at the failing input.  When the language backend returns
malformed JSON, `interpret_query` recovers into an error-bearing intent, but
`process_inbound_message` never unpacks the returned `(intent, raw)` pair:
the `"error" in llm_query_intent` test on the tuple is false, execution is
not skipped, and `execute_query` raises AttributeError on the tuple, so the
reply is the generic database-lookup apology — not the claimed
understand-your-request message. -/
theorem c1_malformed_json_reply_is_lookup_apology :
    processInbound dbTwo (some "e1") "how many products are there?" (some "+4917641208453")
      (.ok (some (EmployeeRec.mk "e1" "Jordan Smith")))
      (malformedJsonIntent, some "oops, not json") persistOk =
      .ok (MessageLogCreateRec.mk (some "e1") "inbound" "how many products are there?"
            "received" "+4917641208453"
            (some ("Sorry " ++ "Jordan" ++ ", an unexpected error occurred during the database lookup: " ++
              "tuple object has no attribute get")) none,
          MessageLogRec.mk (some "e1") "inbound" "how many products are there?"
            "received" "+4917641208453" none none) ∧
    ("Sorry " ++ "Jordan" ++ ", an unexpected error occurred during the database lookup: " ++
      "tuple object has no attribute get") ≠
    ("Sorry " ++ "Jordan" ++ ", I couldn\x27t understand your request: " ++
      "Internal error: The AI was not able to interpret the query as valid JSON") := by
  exact ⟨rfl, by decide⟩

/-- C2 counterexample: an exception raised while persisting the audit record
is not caught by the orchestrator and propagates to the caller, contradicting
the claim that every exception is converted into an apology string. -/
theorem c2_counterexample_persist_exception_propagates :
    processInbound dbEmpty none "hi" (some "+4917641208453") (.ok none) (countIntent, some "raw")
      (fun _ => .error "database connection lost") =
      .error (.other "database connection lost") := rfl

/-- C2 amended: only exceptions arising in the query-execution /
response-formatting block are caught and converted into an apology, so with
a non-raising identity lookup, a phone number present (the pydantic
validation of the audit payload requires one) and a non-raising audit write
the orchestrator always returns normally, provided the raw backend text is
not the literal string `"error"` (which triggers an uncaught TypeError);
an exception raised by the identity lookup propagates to the caller
unconverted, and a `None` phone number makes the `MessageLogCreate`
validation raise outside any handler. -/
theorem c2_amended_catch_covers_only_execution :
    (∀ (db : DB) (eid : Option String) (raw ph : String)
      (v : Option EmployeeRec) (interp : Intent × Option String),
      interp.2 ≠ some "error" →
      ∃ out, processInbound db eid raw (some ph) (.ok v) interp persistOk = .ok out) ∧
    (∀ (db : DB) (e raw : String) (phone : Option String) (m : String)
      (interp : Intent × Option String)
      (persist : MessageLogCreateRec → Except String MessageLogRec),
      processInbound db (some e) raw phone (.error m) interp persist =
        .error (.other m)) ∧
    (∀ (db : DB) (eid : Option String) (raw : String) (v : Option EmployeeRec)
      (interp : Intent × Option String)
      (persist : MessageLogCreateRec → Except String MessageLogRec),
      interp.2 ≠ some "error" →
      processInbound db eid raw none (.ok v) interp persist =
        .error (.other "1 validation error for MessageLogCreate: phone_number Input should be a valid string")) := by
  refine ⟨?_, ?_, ?_⟩
  · intro db eid raw ph v interp hraw
    have hg : ∃ nm, greetingName eid (.ok v) = .ok nm := by
      cases eid with
      | none => exact ⟨"there", rfl⟩
      | some e =>
        cases v with
        | none => exact ⟨"there", rfl⟩
        | some emp => exact ⟨_, rfl⟩
    obtain ⟨nm, hnm⟩ := hg
    unfold processInbound
    rw [hnm]
    simp only [if_neg hraw, persistOk, mkMessageLogCreate]
    exact ⟨_, rfl⟩
  · intro db e raw phone m interp persist
    rfl
  · intro db eid raw v interp persist hraw
    have hg : ∃ nm, greetingName eid (.ok v) = .ok nm := by
      cases eid with
      | none => exact ⟨"there", rfl⟩
      | some e =>
        cases v with
        | none => exact ⟨"there", rfl⟩
        | some emp => exact ⟨_, rfl⟩
    obtain ⟨nm, hnm⟩ := hg
    unfold processInbound
    rw [hnm]
    simp only [if_neg hraw, mkMessageLogCreate]

/-- Witness for `c2_amended_catch_covers_only_execution` at concrete
inputs. -/
theorem c2_amended_catch_covers_only_execution_witness :
    (∃ out, processInbound dbEmpty none "hello" (some "+4917641208453") (.ok none)
      (countIntent, some "raw") persistOk = .ok out) ∧
    processInbound dbEmpty (some "e1") "hello" none (.error "boom")
      (countIntent, some "raw") persistOk = .error (.other "boom") ∧
    processInbound dbEmpty none "hello" none (.ok none)
      (countIntent, some "raw") persistOk =
      .error (.other "1 validation error for MessageLogCreate: phone_number Input should be a valid string") :=
  ⟨c2_amended_catch_covers_only_execution.1 dbEmpty none "hello" "+4917641208453" none
      (countIntent, some "raw") (by decide),
   c2_amended_catch_covers_only_execution.2.1 dbEmpty "e1" "hello" none "boom"
      (countIntent, some "raw") persistOk,
   c2_amended_catch_covers_only_execution.2.2 dbEmpty none "hello" none
      (countIntent, some "raw") persistOk (by decide)⟩

/-- C3: evaluation at the failing input.  One audit record is created per
call, but `create_message_log` constructs the ORM row without the
`system_response_content` it was handed (and the intent is never passed at
all), so the persisted record contains the raw text only — not the derived
intent, not the rendered response. -/
theorem c3_audit_record_drops_intent_and_response :
    ∃ cd log,
      processInbound dbTwo (some "e1") "list all products" (some "+4917641208453")
        (.ok (some (EmployeeRec.mk "e1" "Jordan Smith")))
        (mkIntent (some "products") (some "get_data") (some ["*"]) (some []) .null, some "raw")
        persistOk = .ok (cd, log) ∧
      cd.system_response_content ≠ none ∧
      log.raw_message_content = "list all products" ∧
      log.system_response_content = none ∧
      log.ai_interpreted_command = none := by
  refine ⟨_, _, rfl, by decide, rfl, rfl, rfl⟩

end WDH

namespace WDH

theorem mapM_ok_of_forall {α β : Type} (l : List α) (f : α → Except ExecErr β)
    (g : α → β) (h : ∀ a ∈ l, f a = .ok (g a)) : l.mapM f = .ok (l.map g) := by
  induction l with
  | nil => rfl
  | cons a l ih =>
    rw [List.mapM_cons, h a (by simp), ih (fun b hb => h b (by simp [hb]))]
    rfl

/-- C5: evaluation at the failing input.  An intent with no `limit` key (or
an unparsable one) is executed with **no** LIMIT clause — `limit` is left at
`None` (despite the warning text announcing a default of 1) and the branch
`if limit is not None` skips `query.limit` — so both products of a
two-product database come back; `limit: "null"` is likewise unbounded (that
part of the claim holds), while an explicit limit of 1 returns one row. -/
theorem c5_missing_limit_executes_unbounded :
    executeQuery dbTwo (mkIntent (some "products") (some "get_data") (some ["name"]) (some []) .null) =
      .ok [[("name", .s "Quantum Qube")], [("name", .s "Eco Bottle")]] ∧
    executeQuery dbTwo (mkIntent (some "products") (some "get_data") (some ["name"]) (some []) (.s "abc")) =
      .ok [[("name", .s "Quantum Qube")], [("name", .s "Eco Bottle")]] ∧
    executeQuery dbTwo (mkIntent (some "products") (some "get_data") (some ["name"]) (some []) (.s "null")) =
      .ok [[("name", .s "Quantum Qube")], [("name", .s "Eco Bottle")]] ∧
    executeQuery dbTwo (mkIntent (some "products") (some "get_data") (some ["name"]) (some []) (.i 1)) =
      .ok [[("name", .s "Quantum Qube")]] :=
  ⟨rfl, rfl, rfl, rfl⟩

/-- C6 counterexample: an intent whose action is not `get_data` makes
`execute_query` raise ValueError to its caller (the check precedes the `try`
block), rather than returning the one-element error sentinel; likewise for a
missing table name. -/
theorem c6_counterexample_invalid_action_raises :
    executeQuery dbEmpty (mkIntent (some "products") (some "delete_data") (some ["name"]) (some []) .null) =
      .error (.valueError ("Unsupported action: " ++ "delete_data" ++ ". Only get_data is supported.")) ∧
    executeQuery dbEmpty (mkIntent none (some "get_data") (some ["name"]) (some []) .null) =
      .error (.valueError "Query intent missing table name.") :=
  ⟨rfl, rfl⟩

/-- C6 amended: for every intent whose action is not `get_data` or whose
table name is missing/empty (and whose limit field does not itself raise),
`execute_query` raises ValueError — the validation happens before the `try`
block and before any storage access, and the orchestrator's own handler is
what catches it. -/
theorem c6_amended_validation_raises_valueerror :
    ∀ (db : DB) (q : Intent) (lim : Option Int),
      parseLimit q.limit = .ok lim →
      (q.action ≠ some "get_data" ∨ ¬ truthyOpt q.table) →
      isRaisedValueError (executeQuery db q) = true := by
  intro db q lim hlim hbad
  unfold executeQuery
  rw [hlim]
  by_cases ha : q.action = some "get_data"
  · rcases hbad with hb | hb
    · exact absurd ha hb
    · simp [ha, hb, isRaisedValueError]
  · simp [ha, isRaisedValueError]

/-- Witness for `c6_amended_validation_raises_valueerror` at a concrete
input. -/
theorem c6_amended_validation_raises_valueerror_witness :
    isRaisedValueError (executeQuery dbEmpty
      (mkIntent (some "products") (some "write_data") (some ["name"]) (some []) .null)) = true :=
  c6_amended_validation_raises_valueerror dbEmpty
    (mkIntent (some "products") (some "write_data") (some ["name"]) (some []) .null)
    none rfl (Or.inl (by decide))

/-- C4 counterexample: a requested column that is not declared on the
primary entity (`bogus` on `products`) is silently dropped from the
selection — against an empty table the query succeeds and returns the empty
non-error result instead of the claimed one-element error sentinel. -/
theorem c4_counterexample_unknown_column_not_rejected :
    executeQuery dbEmpty (mkIntent (some "products") (some "get_data") (some ["name", "bogus"]) (some []) .null) =
      .ok [] ∧
    hasattrModel "products" "bogus" = false :=
  ⟨rfl, rfl⟩

end WDH

namespace WDH

/-- C4 amended: an unknown entity, an unknown relationship (a `join_on` whose
stripped name is not declared on the primary model), an unknown join column,
and a filter key on neither entity all make `execute_query` return the
one-element error sentinel without raising; but a requested column not
declared on the primary entity is silently dropped from the selection rather
than rejected: with no matching rows the query returns the empty non-error
result, and with at least one row the mismatch only surfaces as the generic
unexpected-database-error sentinel (an IndexError while serializing), not as
a schema rejection. -/
theorem c4_amended_schema_rejection :
    (∀ (db : DB) (t : String) (cols : List String) (fs : List (String × Scalar)),
      modelCols t = none → t ≠ "" →
      executeQuery db (mkIntent (some t) (some "get_data") (some cols) (some fs) .null) =
        .ok [[("error", .s ("Unknown table name: " ++ t))]]) ∧
    (∀ db : DB,
      executeQuery db (Intent.mk (some "products") (some "get_data") (some ["name"]) (some [])
          .null (some "employees") (some "manager_id") (some ["email"]) none) =
        .ok [[("error", .s ("Relationship " ++ "manager" ++ " not found on primary table " ++ "products" ++ " for join."))]]) ∧
    (∀ db : DB,
      executeQuery db (Intent.mk (some "products") (some "get_data") (some ["name"]) (some [])
          .null (some "employees") (some "product_manager_id") (some ["salary"]) none) =
        .ok [[("error", .s ("Requested join_column " ++ "salary" ++ " not found in join_table " ++ "employees" ++ "."))]]) ∧
    (∀ (db : DB) (v : Scalar),
      executeQuery db (mkIntent (some "products") (some "get_data") (some ["name"]) (some [("bogus", v)]) .null) =
        .ok [[("error", .s ("An unexpected database error occurred: " ++ ("type object has no attribute " ++ "bogus")))]]) ∧
    (∀ (db : DB) (v : String),
      (∀ p ∈ db.products, ilikeVal (p "name") v = false) →
      executeQuery db (mkIntent (some "products") (some "get_data") (some ["name", "bogus"]) (some [("name", .s v)]) .null) =
        .ok []) ∧
    (∀ (db : DB) (p : Row) (rest : List Row), db.products = p :: rest →
      executeQuery db (mkIntent (some "products") (some "get_data") (some ["name", "bogus"]) (some []) .null) =
        .ok [[("error", .s ("An unexpected database error occurred: " ++ "tuple index out of range"))]]) := by
  refine ⟨?_, fun db => rfl, fun db => rfl, fun db v => rfl, ?_, ?_⟩
  · intro db t cols fs hmc ht
    simp only [executeQuery, mkIntent, parseLimit, truthyOpt, ht, execBody, hmc, execCatch]
    simp [ht, hmc]
  · intro db v h
    have hfilter : List.filter ((fun pe : Row × Row => ilikeVal (pe.1 "name") v) ∘ fun p => (p, p)) db.products = [] := by
      rw [List.filter_eq_nil_iff]
      intro p hp
      simp [Function.comp, h p hp]
    simp [executeQuery, mkIntent, parseLimit, execBody, buildQuery, execCatch,
      serializeResults, applyFilters, resolveFilterTarget, truthyOpt, tableRows,
      hasattrModel, modelCols, modelRels, colType, employeeCols, productCols,
      List.filter_map]
    rw [hfilter]
    rfl
  · intro db p rest hprod
    simp [executeQuery, mkIntent, parseLimit, execBody, buildQuery, execCatch,
      serializeResults, applyFilters, resolveFilterTarget, truthyOpt, tableRows,
      hasattrModel, modelCols, modelRels, colType, employeeCols, productCols,
      hprod, List.mapM.loop, rowDictOfTuple, rowDictGo, dictInsert, ser]
    rfl

end WDH

namespace WDH

theorem mapM_loop_ok {α β γ : Type} (l : List α) (m : α → β) (f : β → Except ExecErr γ)
    (g : α → γ) (h : ∀ a ∈ l, f (m a) = .ok (g a)) (acc : List γ) :
    List.mapM.loop f (l.map m) acc = .ok (acc.reverse ++ l.map g) := by
  induction l generalizing acc with
  | nil => rw [List.map_nil, List.map_nil, List.append_nil]; rfl
  | cons a l ih =>
    rw [List.map_cons]
    rw [show List.mapM.loop f (m a :: List.map m l) acc =
      (f (m a) >>= fun b => List.mapM.loop f (List.map m l) (b :: acc)) from rfl]
    rw [h a (by simp)]
    rw [show ((Except.ok (g a) : Except ExecErr γ) >>= fun b => List.mapM.loop f (List.map m l) (b :: acc)) =
      List.mapM.loop f (List.map m l) (g a :: acc) from rfl]
    rw [ih (fun b hb => h b (by simp [hb])) (g a :: acc)]
    simp

/-- Witness for `c4_amended_schema_rejection` at concrete inputs: an unknown
table yields the sentinel; an unknown requested column with no matching rows
yields the empty non-error result; with a matching row it yields the generic
sentinel. -/
theorem c4_amended_schema_rejection_witness :
    executeQuery dbTwo (mkIntent (some "cats") (some "get_data") (some ["name"]) (some []) .null) =
      .ok [[("error", .s ("Unknown table name: " ++ "cats"))]] ∧
    executeQuery dbTwo (mkIntent (some "products") (some "get_data") (some ["name", "bogus"]) (some [("name", .s "zzz")]) .null) =
      .ok [] ∧
    executeQuery dbTwo (mkIntent (some "products") (some "get_data") (some ["name", "bogus"]) (some []) .null) =
      .ok [[("error", .s ("An unexpected database error occurred: " ++ "tuple index out of range"))]] :=
  ⟨c4_amended_schema_rejection.1 dbTwo "cats" ["name"] [] rfl (by decide),
   c4_amended_schema_rejection.2.2.2.2.1 dbTwo "zzz" (by decide),
   c4_amended_schema_rejection.2.2.2.2.2 dbTwo prodQuantum [prodBottle] rfl⟩

theorem likeMatchGo_nil (fuel : Nat) (t : List Char) (h : 0 < fuel) :
    likeMatchGo fuel [] t = t.isEmpty := by
  cases fuel with
  | zero => omega
  | succ f => rfl

theorem likeMatchGo_percent_any :
    ∀ (s : List Char) (fuel : Nat), s.length + 1 < fuel → likeMatchGo fuel ['%'] s = true := by
  intro s
  induction s with
  | nil =>
    intro fuel h
    cases fuel with
    | zero => omega
    | succ f =>
      simp only [likeMatchGo, if_pos rfl]
      rw [likeMatchGo_nil f [] (by omega)]
      rfl
  | cons c ts ih =>
    intro fuel h
    cases fuel with
    | zero => omega
    | succ f =>
      simp only [likeMatchGo, if_pos rfl]
      rw [likeMatchGo_nil f (c :: ts) (by simp at h ⊢; omega)]
      rw [ih f (by simp at h ⊢; omega)]
      rfl

theorem likeMatchGo_plain_percent (P : List Char) (hP : likePlain P = true) :
    ∀ (s : List Char) (fuel : Nat), P.length + s.length + 1 < fuel →
      likeMatchGo fuel (P ++ ['%']) s = lcStarts s P := by
  induction P with
  | nil =>
    intro s fuel h
    rw [List.nil_append]
    rw [likeMatchGo_percent_any s fuel (by simp at h ⊢; omega)]
    cases s <;> rfl
  | cons c P ih =>
    intro s fuel h
    have hall := hP
    simp only [likePlain, List.all_cons, Bool.and_eq_true, decide_eq_true_eq] at hall
    obtain ⟨⟨⟨hc1, hc2⟩, hc3⟩, hP2⟩ := hall
    cases fuel with
    | zero => omega
    | succ f =>
      simp only [List.cons_append, likeMatchGo, if_neg hc1, if_neg hc2, if_neg hc3]
      cases s with
      | nil => rfl
      | cons d ts =>
        show (d == c && likeMatchGo f (P ++ ['%']) ts) = lcStarts (d :: ts) (c :: P)
        rw [ih hP2 ts f (by simp at h ⊢; omega)]
        rfl

theorem likeMatchGo_percent_plain_percent (P : List Char) (hP : likePlain P = true) :
    ∀ (t : List Char) (fuel : Nat), P.length + t.length + 2 < fuel →
      likeMatchGo fuel ('%' :: (P ++ ['%'])) t = lcHas t P := by
  intro t
  induction t with
  | nil =>
    intro fuel h
    cases fuel with
    | zero => omega
    | succ f =>
      simp only [likeMatchGo, if_pos rfl]
      rw [likeMatchGo_plain_percent P hP [] f (by simp at h ⊢; omega)]
      cases P <;> rfl
  | cons d ts ih =>
    intro fuel h
    cases fuel with
    | zero => omega
    | succ f =>
      simp only [likeMatchGo, if_pos rfl]
      rw [likeMatchGo_plain_percent P hP (d :: ts) f (by simp at h ⊢; omega)]
      rw [ih f (by simp at h ⊢; omega)]
      rfl

theorem ilikeSub_plain_eq_litSubCI (hay v : String)
    (h : likePlain (strLower v).toList = true) :
    ilikeSub hay v = litSubCI hay v := by
  unfold ilikeSub litSubCI likePattern
  exact likeMatchGo_percent_plain_percent (v.toList.map Char.toLower) h
    (hay.toList.map Char.toLower) _ (by simp; omega)

/-- C7 counterexample: `_build_query` interpolates the filter value into the
ILIKE pattern without escaping, so a `%` inside the value acts as a LIKE
wildcard: the value `"q%e"` is not a literal substring of `"Quantum Qube"`,
yet the query returns that row — an expanded row set, contradicting the
claimed literal-substring match for every string filter value. -/
theorem c7_counterexample_percent_wildcard_expands :
    executeQuery dbTwo (mkIntent (some "products") (some "get_data") (some ["name"]) (some [("name", .s "q%e")]) .null) =
      .ok [[("name", .s "Quantum Qube")]] ∧
    litSubCI "Quantum Qube" "q%e" = false :=
  ⟨rfl, rfl⟩

/-- C7 amended: string filter values are bound parameters interpolated —
unescaped — into an `ILIKE %value%` pattern: the result set is a pure
function of the filter value under SQL LIKE semantics (so quote characters
and other SQL syntax in the value can never alter query structure), values
whose lower-cased form is free of the LIKE metacharacters `%`, `_` and the
escape backslash are matched exactly as case-insensitive literal substrings,
and UUID filter values are matched by exact equality; but `%` and `_` inside
the value keep their wildcard meaning and can expand the row set. -/
theorem c7_amended_unescaped_ilike_binding :
    (∀ (db : DB) (v : String),
      executeQuery db (mkIntent (some "products") (some "get_data") (some ["name"]) (some [("name", .s v)]) (.s "null")) =
        .ok ((db.products.filter (fun p => ilikeVal (p "name") v)).map
          (fun p => [("name", ser (p "name"))]))) ∧
    (∀ (hay v : String), likePlain (strLower v).toList = true →
      ilikeSub hay v = litSubCI hay v) ∧
    (∀ (db : DB) (u : String),
      executeQuery db (mkIntent (some "products") (some "get_data") (some ["name"]) (some [("product_manager_id", .u u)]) (.s "null")) =
        .ok ((db.products.filter (fun p => p "product_manager_id" == .u u)).map
          (fun p => [("name", ser (p "name"))]))) := by
  refine ⟨?_, fun hay v h => ilikeSub_plain_eq_litSubCI hay v h, ?_⟩
  · intro db v
    simp only [executeQuery, mkIntent, parseLimit, execBody, buildQuery, execCatch,
      serializeResults, applyFilters, resolveFilterTarget, truthyOpt, tableRows]
    simp [hasattrModel, modelCols, modelRels, colType, employeeCols, productCols,
      List.filter_map, strLower]
    have hm := mapM_loop_ok
      (List.filter ((fun pe : Row × Row => ilikeVal (pe.1 "name") v) ∘ fun p => (p, p)) db.products)
      ((fun pe : Row × Row => [pe.1 "name"]) ∘ fun p => (p, p))
      (rowDictOfTuple ["name"])
      (fun p => [("name", ser (p "name"))])
      (fun a _ => rfl) []
    rw [hm]
    simp [Function.comp]
    rfl
  · intro db u
    simp only [executeQuery, mkIntent, parseLimit, execBody, buildQuery, execCatch,
      serializeResults, applyFilters, resolveFilterTarget, truthyOpt, tableRows]
    simp [hasattrModel, modelCols, modelRels, colType, employeeCols, productCols,
      List.filter_map, strLower]
    have hm := mapM_loop_ok
      (List.filter ((fun pe : Row × Row => pe.1 "product_manager_id" == .u u) ∘ fun p => (p, p)) db.products)
      ((fun pe : Row × Row => [pe.1 "name"]) ∘ fun p => (p, p))
      (rowDictOfTuple ["name"])
      (fun p => [("name", ser (p "name"))])
      (fun a _ => rfl) []
    rw [hm]
    simp [Function.comp]
    rfl

/-- Witness for `c7_amended_unescaped_ilike_binding` at concrete inputs: the
spec's injection example is metacharacter-free, so the engine treats it as a
literal substring search. -/
theorem c7_amended_unescaped_ilike_binding_witness :
    ilikeSub "Quantum Qube" "\x27 OR 1=1 --" = litSubCI "Quantum Qube" "\x27 OR 1=1 --" :=
  c7_amended_unescaped_ilike_binding.2.1 "Quantum Qube" "\x27 OR 1=1 --" (by decide)

end WDH

namespace WDH

/-- C8: for the canonical count intent `{table: "products", action:
"get_data", columns: ["id"], filters: {}}`, execution returns one id-row per
product (N rows for N products), and the formatter renders exactly
`"There are N products in the database, {name}."` — the entity name's
trailing `s` stripped (`rstrip('s')`), then `s` appended for the plural
phrasing. -/
theorem c8_count_canonicalization :
    ∀ (db : DB) (name : String),
      executeQuery db countIntent =
        .ok (db.products.map (fun p => [("id", ser (p "id"))])) ∧
      formatResponse countIntent (db.products.map (fun p => [("id", ser (p "id"))])) name =
        "There are " ++ toString db.products.length ++ " " ++ "product" ++ "s in the database, " ++ name ++ "." := by
  intro db name
  constructor
  · simp only [executeQuery, countIntent, mkIntent, parseLimit, execBody, buildQuery, execCatch,
      serializeResults, applyFilters, resolveFilterTarget, truthyOpt, tableRows]
    simp [hasattrModel, modelCols, modelRels, colType, employeeCols, productCols]
    have hm := mapM_loop_ok
      db.products
      ((fun pe : Row × Row => [pe.1 "id"]) ∘ fun p => (p, p))
      (rowDictOfTuple ["id"])
      (fun p => [("id", ser (p "id"))])
      (fun a _ => rfl) []
    rw [hm]
    simp
  · have hsent : isSentinel (db.products.map (fun p => [("id", ser (p "id"))])) = false := by
      cases db.products with
      | nil => rfl
      | cons p l => rfl
    have hr : rstripS "products" = "product" := rfl
    simp [formatResponse, hsent, countIntent, mkIntent, hr]

/-- C9: in a join query over `products ⋈ employees`, a filter key that exists
on both entities (`name`) is applied to the primary entity's column only —
the joined row's column is ignored — while a filter key absent from the
primary entity (`email`, declared on `employees` only) is applied to the
joined entity's column.  `ilikeVal` here is the faithful unescaped-`ILIKE`
match (wildcards and all), so the binding claim is stated over the engine's
actual match semantics. -/
theorem c9_join_filter_prefers_primary :
    (∀ (db : DB) (v : String),
      executeQuery db (Intent.mk (some "products") (some "get_data") (some ["name"]) (some [("name", .s v)])
          (.s "null") (some "employees") (some "product_manager_id") (some ["email"]) none) =
        .ok (((joinPairs db).filter (fun pe => ilikeVal (pe.1 "name") v)).map
          (fun pe => [("name", ser (pe.1 "name")), ("email", ser (pe.2 "email"))]))) ∧
    (∀ (db : DB) (v : String),
      executeQuery db (Intent.mk (some "products") (some "get_data") (some ["name"]) (some [("email", .s v)])
          (.s "null") (some "employees") (some "product_manager_id") (some ["email"]) none) =
        .ok (((joinPairs db).filter (fun pe => ilikeVal (pe.2 "email") v)).map
          (fun pe => [("name", ser (pe.1 "name")), ("email", ser (pe.2 "email"))]))) := by
  constructor
  · intro db v
    simp only [executeQuery, mkIntent, parseLimit, execBody, buildQuery, execCatch,
      serializeResults, applyFilters, resolveFilterTarget, truthyOpt, tableRows, checkJoinCols]
    simp [hasattrModel, modelCols, modelRels, colType, employeeCols, productCols,
      strLower, joinPairs, lcEnds, replaceAll, replaceAllGo, lcStarts]
    have hm := mapM_loop_ok
      (List.filter (fun pe : Row × Row => ilikeVal (pe.1 "name") v)
        (db.products.flatMap fun p =>
          List.map (fun e => (p, e)) (List.filter (fun e => p "product_manager_id" == e "id") db.employees)))
      (fun pe : Row × Row => [pe.1 "name", pe.2 "email"])
      (rowDictOfTuple ["name", "email"])
      (fun pe : Row × Row => [("name", ser (pe.1 "name")), ("email", ser (pe.2 "email"))])
      (fun a _ => rfl) []
    rw [hm]
    simp
  · intro db v
    simp only [executeQuery, mkIntent, parseLimit, execBody, buildQuery, execCatch,
      serializeResults, applyFilters, resolveFilterTarget, truthyOpt, tableRows, checkJoinCols]
    simp [hasattrModel, modelCols, modelRels, colType, employeeCols, productCols,
      strLower, joinPairs, lcEnds, replaceAll, replaceAllGo, lcStarts]
    have hm := mapM_loop_ok
      (List.filter (fun pe : Row × Row => ilikeVal (pe.2 "email") v)
        (db.products.flatMap fun p =>
          List.map (fun e => (p, e)) (List.filter (fun e => p "product_manager_id" == e "id") db.employees)))
      (fun pe : Row × Row => [pe.1 "name", pe.2 "email"])
      (rowDictOfTuple ["name", "email"])
      (fun pe : Row × Row => [("name", ser (pe.1 "name")), ("email", ser (pe.2 "email"))])
      (fun a _ => rfl) []
    rw [hm]
    simp

end WDH
